import Mathlib

/-!
Shallow embedding of the thumbnail composition engine of
`src/components/optimizer/CanvasWorkspace.tsx`.

Numbers (coordinates, font sizes, scale factors) are modelled as rationals;
JavaScript strings as `String`; the React state triple
(`textObjects`, `history`, `future`) together with the externally held
selection id (`selectedTextId`, written through `onSelectText`) and the
`dragOffset` / `snapLines` state hooks becomes one explicit state record.
`JSON.parse(JSON.stringify(x))` is a deep copy, which under value semantics
is the identity.  Pointer coordinates are taken after the
device-to-logical scaling, i.e. the handlers receive the already scaled
`mouseX` / `mouseY` values.
-/

inductive Align where
  | left
  | center
  | right
  deriving DecidableEq

/-- The `TextObject` interface from `types.ts` (optional boolean flags are
modelled as `Bool`, absent meaning `false`; `zIndex` stays optional). -/
structure TextObject where
  id : String
  text : String
  x : ℚ
  y : ℚ
  fontSize : ℚ
  fontFamily : String
  color : String
  strokeColor : String
  strokeWidth : ℚ
  shadowColor : String
  shadowBlur : ℚ
  highlightWords : List String
  highlightColor : String
  highlightScale : ℚ
  lineHeight : ℚ
  opacity : ℚ
  rotation : ℚ
  align : Align
  isDragging : Bool
  isLocked : Bool
  isHidden : Bool
  zIndex : Option Nat
  deriving DecidableEq

/-- `Partial<TextObject>` as used by `CanvasTemplate.objects`: every field
optional, `none` meaning the field is absent (`undefined`). -/
structure PartialTextObject where
  id : Option String := none
  text : Option String := none
  x : Option ℚ := none
  y : Option ℚ := none
  fontSize : Option ℚ := none
  fontFamily : Option String := none
  color : Option String := none
  strokeColor : Option String := none
  strokeWidth : Option ℚ := none
  shadowColor : Option String := none
  shadowBlur : Option ℚ := none
  highlightWords : Option (List String) := none
  highlightColor : Option String := none
  highlightScale : Option ℚ := none
  lineHeight : Option ℚ := none
  opacity : Option ℚ := none
  rotation : Option ℚ := none
  align : Option Align := none
  isDragging : Option Bool := none
  isLocked : Option Bool := none
  isHidden : Option Bool := none
  zIndex : Option Nat := none
  deriving DecidableEq

structure CanvasTemplate where
  id : String
  name : String
  previewColor : String
  objects : List PartialTextObject
  deriving DecidableEq

/-- The component state: layer sequence, past stack (most recent snapshot at
the END of the list, matching array push/pop at the back), future stack
(earliest redo snapshot at the head), selection id (empty string = none),
drag offset and snap-line feedback. -/
structure WState where
  textObjects : List TextObject
  history : List (List TextObject)
  future : List (List TextObject)
  selectedTextId : String
  dragOffset : ℚ × ℚ
  snapLines : Option ℚ × Option ℚ
  deriving DecidableEq

/-- JavaScript `arr.slice(-k)`: the last `k` elements (the whole list when it
is shorter than `k`). -/
def lastN (k : Nat) (l : List α) : List α :=
  l.drop (l.length - k)

/-- `pushHistory`: deep-copies the current layer sequence onto the past stack,
keeps only the last 20 snapshots, and clears the future stack. -/
def pushHistory (s : WState) : WState :=
  { s with history := lastN 20 (s.history ++ [s.textObjects]), future := [] }

/-- `handleUndo`: no-op on an empty past stack; otherwise pops the last past
snapshot, pushes the pre-undo layer sequence onto the front of future, and
installs the snapshot. -/
def handleUndo (s : WState) : WState :=
  match s.history.getLast? with
  | none => s
  | some previous =>
    { s with
      future := s.textObjects :: s.future
      textObjects := previous
      history := s.history.dropLast }

/-- `handleRedo`: no-op on an empty future stack; otherwise pops the earliest
future snapshot, pushes the current layer sequence onto past (uncapped, as in
the source), and installs it. -/
def handleRedo (s : WState) : WState :=
  match s.future with
  | [] => s
  | next :: rest =>
    { s with
      history := s.history ++ [s.textObjects]
      textObjects := next
      future := rest }

/-- Iterated `handleUndo`. -/
def undoN (s : WState) : Nat → WState
  | 0 => s
  | n + 1 => undoN (handleUndo s) n

/-- A `(key, value)` pair for `updateObject`, one constructor per
`keyof TextObject` that carries the new value. -/
inductive PropUpdate where
  | text (v : String)
  | x (v : ℚ)
  | y (v : ℚ)
  | fontSize (v : ℚ)
  | fontFamily (v : String)
  | color (v : String)
  | strokeColor (v : String)
  | strokeWidth (v : ℚ)
  | shadowColor (v : String)
  | shadowBlur (v : ℚ)
  | highlightWords (v : List String)
  | highlightColor (v : String)
  | highlightScale (v : ℚ)
  | lineHeight (v : ℚ)
  | opacity (v : ℚ)
  | rotation (v : ℚ)
  | align (v : Align)
  deriving DecidableEq

def applyProp : PropUpdate → TextObject → TextObject
  | .text v, t => { t with text := v }
  | .x v, t => { t with x := v }
  | .y v, t => { t with y := v }
  | .fontSize v, t => { t with fontSize := v }
  | .fontFamily v, t => { t with fontFamily := v }
  | .color v, t => { t with color := v }
  | .strokeColor v, t => { t with strokeColor := v }
  | .strokeWidth v, t => { t with strokeWidth := v }
  | .shadowColor v, t => { t with shadowColor := v }
  | .shadowBlur v, t => { t with shadowBlur := v }
  | .highlightWords v, t => { t with highlightWords := v }
  | .highlightColor v, t => { t with highlightColor := v }
  | .highlightScale v, t => { t with highlightScale := v }
  | .lineHeight v, t => { t with lineHeight := v }
  | .opacity v, t => { t with opacity := v }
  | .rotation v, t => { t with rotation := v }
  | .align v, t => { t with align := v }

/-- `updateObject(id, key, value, recordHistory)`: pushes a snapshot first
when `recordHistory` is set (even when the id matches no layer), then maps the
single-field update over layers with a matching id. -/
def updateObject (s : WState) (id : String) (kv : PropUpdate)
    (recordHistory : Bool) : WState :=
  let s1 := if recordHistory then pushHistory s else s
  { s1 with
    textObjects := s1.textObjects.map fun t =>
      if t.id = id then applyProp kv t else t }

/-- `textObjects.find(t => t.id === id)`. -/
def findById (l : List TextObject) (id : String) : Option TextObject :=
  l.find? fun t => t.id == id

/-- Keyboard events reaching `handleKeyDown` outside a text input (the
undo/redo shortcuts, Escape, the four arrow keys with their shift state, and
Delete/Backspace). -/
inductive KeyEvt where
  | ctrlZ
  | ctrlY
  | escape
  | arrowUp (shift : Bool)
  | arrowDown (shift : Bool)
  | arrowLeft (shift : Bool)
  | arrowRight (shift : Bool)
  | deleteKey
  deriving DecidableEq

/-- The keydown listener of the workspace.  Note that the arrow-key nudges
call `updateObject` with `recordHistory = false` and perform no check of the
`isLocked` flag of the active object. -/
def handleKeyDown (s : WState) : KeyEvt → WState
  | .ctrlZ => handleUndo s
  | .ctrlY => handleRedo s
  | .escape => { s with selectedTextId := "" }
  | .arrowUp shift =>
    if s.selectedTextId = "" then s else
    match findById s.textObjects s.selectedTextId with
    | none => s
    | some o =>
      updateObject s s.selectedTextId
        (.y (o.y - (if shift then 10 else 1))) false
  | .arrowDown shift =>
    if s.selectedTextId = "" then s else
    match findById s.textObjects s.selectedTextId with
    | none => s
    | some o =>
      updateObject s s.selectedTextId
        (.y (o.y + (if shift then 10 else 1))) false
  | .arrowLeft shift =>
    if s.selectedTextId = "" then s else
    match findById s.textObjects s.selectedTextId with
    | none => s
    | some o =>
      updateObject s s.selectedTextId
        (.x (o.x - (if shift then 10 else 1))) false
  | .arrowRight shift =>
    if s.selectedTextId = "" then s else
    match findById s.textObjects s.selectedTextId with
    | none => s
    | some o =>
      updateObject s s.selectedTextId
        (.x (o.x + (if shift then 10 else 1))) false
  | .deleteKey =>
    if s.selectedTextId = "" then s else
    match findById s.textObjects s.selectedTextId with
    | none => s
    | some _ =>
      let s1 := pushHistory s
      { s1 with
        textObjects := s1.textObjects.filter fun t => t.id ≠ s.selectedTextId
        selectedTextId := "" }

/-- Whether a layer is hit at pointer position `(mx, my)`:
`Math.sqrt((mx-x)^2 + (my-y)^2) < 150` — stated on squares, which over the
nonnegative reals is equivalent since squaring is monotone. -/
def hitPred (mx my : ℚ) (o : TextObject) : Prop :=
  o.isHidden = false ∧ o.isLocked = false ∧
    (mx - o.x) ^ 2 + (my - o.y) ^ 2 < 150 ^ 2

instance (mx my : ℚ) (o : TextObject) : Decidable (hitPred mx my o) := by
  unfold hitPred; infer_instance

/-- The reverse-order hit-test loop of `handleMouseDown`, run on the already
reversed layer list: hidden or locked layers are skipped, the first layer
within the hit radius is returned. -/
def findHit (mx my : ℚ) : List TextObject → Option TextObject
  | [] => none
  | obj :: rest =>
    if obj.isHidden || obj.isLocked then findHit mx my rest
    else if (mx - obj.x) ^ 2 + (my - obj.y) ^ 2 < 150 ^ 2 then some obj
    else findHit mx my rest

/-- `handleMouseDown` (the internal workspace handler): on a hit it pushes a
history snapshot, selects the layer, marks it dragging and records the offset
of the pointer from the layer anchor; on a miss it only clears selection. -/
def handleMouseDown (s : WState) (mx my : ℚ) : WState :=
  match findHit mx my s.textObjects.reverse with
  | some obj =>
    let s1 := pushHistory s
    { s1 with
      selectedTextId := obj.id
      textObjects := s1.textObjects.map fun t =>
        if t.id = obj.id then { t with isDragging := true } else t
      dragOffset := (mx - obj.x, my - obj.y) }
  | none => { s with selectedTextId := "" }

/-- Per-axis snap of `handleMouseMove`: a coordinate strictly closer than the
threshold 15 to the given surface center is clamped to the center. -/
def snapCoord (v center : ℚ) : ℚ :=
  if |v - center| < 15 then center else v

/-- `handleMouseMove` (the internal workspace handler): a no-op unless the
selected layer exists, is marked dragging, and is unlocked; otherwise the
anchor becomes the pointer minus the stored drag offset, snapped per axis to
the centers 640 and 360, and the snap-line feedback is stored. -/
def handleMouseMove (s : WState) (mx my : ℚ) : WState :=
  match findById s.textObjects s.selectedTextId with
  | none => s
  | some activeObj =>
    if !activeObj.isDragging || activeObj.isLocked then s else
    let newX := snapCoord (mx - s.dragOffset.1) 640
    let newY := snapCoord (my - s.dragOffset.2) 360
    { s with
      snapLines :=
        ((if |mx - s.dragOffset.1 - 640| < 15 then some 640 else none),
         (if |my - s.dragOffset.2 - 360| < 15 then some 360 else none))
      textObjects := s.textObjects.map fun t =>
        if t.id = s.selectedTextId then { t with x := newX, y := newY }
        else t }

/-- `handleMouseUp`: clears every dragging flag and the snap lines. -/
def handleMouseUp (s : WState) : WState :=
  { s with
    textObjects := s.textObjects.map fun t => { t with isDragging := false }
    snapLines := (none, none) }

/-- The `onToggleHidden` callback passed to the layer panel. -/
def onToggleHidden (s : WState) (id : String) : WState :=
  let s1 := pushHistory s
  { s1 with
    textObjects := s1.textObjects.map fun t =>
      if t.id = id then { t with isHidden := !t.isHidden } else t }

/-- The `onToggleLock` callback passed to the layer panel. -/
def onToggleLock (s : WState) (id : String) : WState :=
  let s1 := pushHistory s
  { s1 with
    textObjects := s1.textObjects.map fun t =>
      if t.id = id then { t with isLocked := !t.isLocked } else t }

/-- The `onDelete` callback passed to the layer panel. -/
def onDelete (s : WState) (id : String) : WState :=
  let s1 := pushHistory s
  { s1 with
    textObjects := s1.textObjects.filter fun t => t.id ≠ id
    selectedTextId := "" }

inductive MoveDir where
  | up
  | down
  deriving DecidableEq

/-- Swap the elements at positions `i` and `i + 1` (used for the array
destructuring swap of `onMoveLayer`). -/
def swapWithNext (l : List TextObject) (i : Nat) : List TextObject :=
  match l[i]?, l[i + 1]? with
  | some a, some b => (l.set i b).set (i + 1) a
  | _, _ => l

/-- The `onMoveLayer` callback passed to the layer panel: an unknown id
returns before any history push; a found id pushes a snapshot and then swaps
only when not at the relevant boundary. -/
def onMoveLayer (s : WState) (id : String) (dir : MoveDir) : WState :=
  match s.textObjects.findIdx? (fun t => t.id == id) with
  | none => s
  | some idx =>
    let s1 := pushHistory s
    let arr := s1.textObjects
    let newArr :=
      match dir with
      | .up => if idx < arr.length - 1 then swapWithNext arr idx else arr
      | .down => if 0 < idx then swapWithNext arr (idx - 1) else arr
    { s1 with textObjects := newArr }

/-- JavaScript `a || b` for an optional numeric field: an absent field and a
supplied `0` are both falsy and yield the default. -/
def orNum (o : Option ℚ) (d : ℚ) : ℚ :=
  match o with
  | none => d
  | some v => if v = 0 then d else v

/-- JavaScript `a || b` for an optional string field: an absent field and a
supplied empty string are both falsy and yield the default. -/
def orStr (o : Option String) (d : String) : String :=
  match o with
  | none => d
  | some v => if v = "" then d else v

/-- The template id `t_${Date.now()}_${i}`; the timestamp is a parameter. -/
def mkTplId (now i : Nat) : String :=
  "t_" ++ Nat.repr now ++ "_" ++ Nat.repr i

/-- One element of the `tpl.objects.map((obj, i) => ({...obj, ...}))` literal
of `handleApplyTemplate`.  Keys written after the spread overwrite the spread,
so `fontFamily`, `shadowBlur`, `shadowColor`, `isLocked`, `isHidden`, `align`,
`lineHeight` and `opacity` are forced to the defaults, while the `x || 640`
style fields fall back to the default exactly when absent or falsy. -/
def mkTemplateObject (now i : Nat) (obj : PartialTextObject) : TextObject :=
  { id := mkTplId now i
    text := orStr obj.text "نص"
    x := orNum obj.x 640
    y := orNum obj.y 360
    fontSize := orNum obj.fontSize 60
    fontFamily := "Cairo"
    color := orStr obj.color "#fff"
    strokeColor := orStr obj.strokeColor "#000"
    strokeWidth := orNum obj.strokeWidth 2
    shadowColor := "rgba(0,0,0,0.8)"
    shadowBlur := 10
    highlightWords := obj.highlightWords.getD []
    highlightColor := orStr obj.highlightColor "#fbbf24"
    highlightScale := orNum obj.highlightScale 1.1
    lineHeight := 1.2
    opacity := 1
    rotation := orNum obj.rotation 0
    align := Align.center
    isDragging := obj.isDragging.getD false
    isLocked := false
    isHidden := false
    zIndex := obj.zIndex }

/-- `list.map((obj, i) => f i obj)` with explicit index threading. -/
def mapWithIndex (f : Nat → PartialTextObject → TextObject) :
    Nat → List PartialTextObject → List TextObject
  | _, [] => []
  | i, o :: rest => f i o :: mapWithIndex f (i + 1) rest

/-- `handleApplyTemplate`: when the confirmation dialog is declined nothing
happens; otherwise a snapshot is pushed, the whole layer sequence is replaced
by the freshly built template layers, and the first new layer is selected
(selection is untouched when the template has no objects). -/
def handleApplyTemplate (confirmed : Bool) (s : WState)
    (tpl : CanvasTemplate) (now : Nat) : WState :=
  if confirmed then
    let s1 := pushHistory s
    let newObjs := mapWithIndex (mkTemplateObject now) 0 tpl.objects
    { s1 with
      textObjects := newObjs
      selectedTextId :=
        match newObjs with
        | [] => s.selectedTextId
        | o :: _ => o.id }
  else s

/-- The local `handleAddTextLayer` of the workspace: snapshot, append a fresh
default-styled layer at the surface center, select it. -/
def handleAddTextLayer (s : WState) (text : String) (now : Nat) : WState :=
  let s1 := pushHistory s
  let newObj : TextObject :=
    { id := "t" ++ Nat.repr now
      text := text
      x := 640
      y := 360
      fontSize := 100
      fontFamily := "Cairo"
      color := "#ffffff"
      strokeColor := "#000000"
      strokeWidth := 4
      shadowColor := "rgba(0,0,0,0.8)"
      shadowBlur := 10
      highlightWords := []
      highlightColor := "#fbbf24"
      highlightScale := 1.0
      lineHeight := 1.2
      opacity := 1
      rotation := 0
      align := Align.center
      isDragging := false
      isLocked := false
      isHidden := false
      zIndex := some (s.textObjects.length + 1) }
  { s1 with
    textObjects := s1.textObjects ++ [newObj]
    selectedTextId := newObj.id }

/-- The history-recorded mutating operations named by the specification. -/
inductive Op where
  | add (text : String) (now : Nat)
  | del (id : String)
  | toggleHidden (id : String)
  | toggleLock (id : String)
  | move (id : String) (dir : MoveDir)
  | update (id : String) (kv : PropUpdate)
  | template (tpl : CanvasTemplate) (now : Nat)

def applyOp (s : WState) : Op → WState
  | .add t n => handleAddTextLayer s t n
  | .del id => onDelete s id
  | .toggleHidden id => onToggleHidden s id
  | .toggleLock id => onToggleLock s id
  | .move id dir => onMoveLayer s id dir
  | .update id kv => updateObject s id kv true
  | .template tpl n => handleApplyTemplate true s tpl n

def applyOps (s : WState) : List Op → WState
  | [] => s
  | op :: rest => applyOps (applyOp s op) rest

/-- Whether an operation actually records a history snapshot in state `s`:
every listed operation does except a reorder whose id matches no layer
(which returns before `pushHistory`). -/
def recordsHistory (s : WState) : Op → Bool
  | .move id _ => (s.textObjects.findIdx? (fun t => t.id == id)).isSome
  | _ => true

/-- All operations along the trace record a snapshot. -/
def allRecorded (s : WState) : List Op → Bool
  | [] => true
  | op :: rest => recordsHistory s op && allRecorded (applyOp s op) rest

/-! ### Rendering-side definitions (the draw loop word layout) -/

/-- JavaScript whitespace as relevant to `trim()`. -/
def isJsWhite (c : Char) : Bool :=
  c == ' ' || c == '\t' || c == '\n' || c == '\r'

/-- `String.prototype.trim`: strip whitespace from both ends (structural
model over the character list). -/
def trimChars (l : List Char) : List Char :=
  ((l.dropWhile isJsWhite).reverse.dropWhile isJsWhite).reverse

/-- `line.split(' ')`: split on every single space, keeping empty pieces
(structural model of the JavaScript semantics). -/
def splitSpaceAux (cur : List Char) : List Char → List (List Char)
  | [] => [cur.reverse]
  | c :: rest =>
    if c == ' ' then cur.reverse :: splitSpaceAux [] rest
    else splitSpaceAux (c :: cur) rest

def splitSpace (line : String) : List String :=
  (splitSpaceAux [] line.toList).map String.mk

/-- `w.trim().replace(/[.,!؟]/g, "")`: trim, then delete every period, comma,
exclamation mark and Arabic question mark. -/
def cleanWord (w : String) : String :=
  String.mk ((trimChars w.toList).filter fun c =>
    !(c == '.' || c == ',' || c == '!' || c == '؟'))

/-- The test `/[؀-ۿ]/.test(line)`. -/
def isArabicLine (line : String) : Bool :=
  line.toList.any fun c => 0x600 ≤ c.toNat && c.toNat ≤ 0x6FF

/-- One entry of the `wordMetrics` array of the draw loop. -/
structure WordMetric where
  word : String
  width : ℚ
  size : ℚ
  isHigh : Bool
  deriving DecidableEq

/-- The word-metric pass of the draw loop for one line, parametrised by the
canvas text-measuring oracle `measure text fontSize`: split on spaces,
reverse the word order for right-to-left lines, and measure each word (with
its trailing space) at its drawn size — the highlight-scaled size when the
cleaned word is in the highlight set, the base font size otherwise. -/
def lineWordMetrics (measure : String → ℚ → ℚ) (obj : TextObject)
    (line : String) : List WordMetric :=
  let words0 := splitSpace line
  let words := if isArabicLine line then words0.reverse else words0
  words.map fun w =>
    let cleanW := cleanWord w
    let isHigh := obj.highlightWords.contains cleanW
    let currentSize :=
      if isHigh then obj.fontSize * obj.highlightScale else obj.fontSize
    { word := w, width := measure (w ++ " ") currentSize,
      size := currentSize, isHigh := isHigh }

/-- `wordMetrics.reduce((acc, m) => acc + m.width, 0)`. -/
def totalLineWidth (ms : List WordMetric) : ℚ :=
  ms.foldl (fun acc m => acc + m.width) 0

/-- The initial `drawX` from the alignment of the layer. -/
def lineStartX (obj : TextObject) (total : ℚ) : ℚ :=
  match obj.align with
  | .center => obj.x - total / 2
  | .right => obj.x - total
  | .left => obj.x

/-- The successive `drawX` values of the word-draw loop: each word is drawn
at the current position and then advances the position by its own width. -/
def drawPositions (startX : ℚ) : List WordMetric → List ℚ
  | [] => []
  | m :: rest => startX :: drawPositions (startX + m.width) rest

/-! ### Concrete demonstration inputs used by witnesses and counterexamples -/

def demoLayer : TextObject :=
  { id := "L1", text := "Hi", x := 640, y := 360, fontSize := 80,
    fontFamily := "Cairo", color := "#ffffff", strokeColor := "#000000",
    strokeWidth := 4, shadowColor := "rgba(0,0,0,0.8)", shadowBlur := 10,
    highlightWords := [], highlightColor := "#fbbf24", highlightScale := 1,
    lineHeight := 1, opacity := 1, rotation := 0, align := .center,
    isDragging := false, isLocked := false, isHidden := false, zIndex := none }

def demoState : WState :=
  { textObjects := [demoLayer], history := [], future := [],
    selectedTextId := "L1", dragOffset := (0, 0), snapLines := (none, none) }

def demoOps : List Op := [.add "A" 7, .toggleHidden "L1"]

def demoState2 : WState := { demoState with history := [[]] }

def demoDragLayer : TextObject := { demoLayer with isDragging := true }

def demoDragState : WState :=
  { textObjects := [demoDragLayer], history := [], future := [],
    selectedTextId := "L1", dragOffset := (0, 0), snapLines := (none, none) }

def layerA : TextObject := { demoLayer with id := "A", x := 600 }

def layerB : TextObject := { demoLayer with id := "B", x := 660 }

def demoTwo : WState :=
  { textObjects := [layerA, layerB], history := [], future := [],
    selectedTextId := "", dragOffset := (0, 0), snapLines := (none, none) }

def lockedLayer : TextObject := { demoLayer with isLocked := true }

def demoLocked : WState :=
  { textObjects := [lockedLayer], history := [], future := [],
    selectedTextId := "L1", dragOffset := (0, 0), snapLines := (none, none) }

def demoTplBad : CanvasTemplate :=
  { id := "tb", name := "bad", previewColor := "#fff",
    objects := [{ fontFamily := some "Oswald", x := some 0 }] }

def sceneX : WState :=
  { textObjects := [{ demoLayer with id := "orig", text := "X" }],
    history := [], future := [], selectedTextId := "orig",
    dragOffset := (0, 0), snapLines := (none, none) }

def demoTpl3 : CanvasTemplate :=
  { id := "t3", name := "three", previewColor := "#abc",
    objects := [{ text := some "VS", x := some 640 },
      { text := some "A" }, { text := some "B" }] }

def demoTpl0 : CanvasTemplate :=
  { id := "t0", name := "empty", previewColor := "#000", objects := [] }

def hw40 : TextObject :=
  { demoLayer with
    text := "HELLO WORLD",
    highlightWords := ["WORLD"],
    highlightScale := 1.5,
    fontSize := 40 }

def cmeasure : String → ℚ → ℚ := fun _ q => q

def wmWorld : WordMetric := { word := "WORLD", width := 60, size := 60, isHigh := true }

/-! ### Helper lemmas -/

theorem lastN_eq_reverse_take (k : Nat) (l : List α) :
    lastN k l = (l.reverse.take k).reverse := by
  rw [show lastN k l = l.rtake k from rfl, List.rtake_eq_reverse_take_reverse]

theorem take_append_take (k : Nat) (c d : List α) :
    (c ++ d.take k).take k = (c ++ d).take k := by
  rw [List.take_append_eq_append_take, List.take_append_eq_append_take,
    List.take_take, Nat.min_eq_left (Nat.sub_le k c.length)]

theorem lastN_lastN_append (k : Nat) (a b : List α) :
    lastN k (lastN k a ++ b) = lastN k (a ++ b) := by
  simp only [lastN_eq_reverse_take, List.reverse_append, List.reverse_reverse]
  rw [take_append_take]

theorem lastN_append_of_le (k : Nat) (a b : List α) (h : b.length ≤ k) :
    lastN k (a ++ b) = lastN (k - b.length) a ++ b := by
  simp only [lastN_eq_reverse_take, List.reverse_append]
  rw [List.take_append_eq_append_take,
    List.take_of_length_le (by simpa using h), List.length_reverse,
    List.reverse_append, List.reverse_reverse]

theorem length_lastN (k : Nat) (l : List α) :
    (lastN k l).length = l.length - (l.length - k) := by
  simp [lastN, List.length_drop]

/-- Popping `snaps.length` undo steps from a past stack whose suffix is
`snaps` restores the earliest snapshot of `snaps` (or leaves the layers
alone when `snaps` is empty). -/
theorem undoN_pops (snaps : List (List TextObject)) :
    ∀ (p : List (List TextObject)) (s : WState), s.history = p ++ snaps →
      (undoN s snaps.length).textObjects = snaps.headD s.textObjects := by
  induction snaps using List.reverseRecOn with
  | nil => intro p s _; simp [undoN]
  | append_singleton init lst ih =>
    intro p s h
    have hlen : (init ++ [lst]).length = init.length + 1 := by simp
    rw [hlen]
    show (undoN (handleUndo s) init.length).textObjects = _
    have h1 : s.history.getLast? = some lst := by
      rw [h, ← List.append_assoc, List.getLast?_concat]
    have h2 : s.history.dropLast = p ++ init := by
      rw [h, ← List.append_assoc, List.dropLast_concat]
    have hu : handleUndo s =
        { s with future := s.textObjects :: s.future, textObjects := lst,
                 history := p ++ init } := by
      unfold handleUndo
      rw [h1, h2]
    rw [hu, ih p _ rfl]
    cases init <;> simp

/-- Every operation that records history pushes exactly the pre-operation
layer sequence (capped) and clears the future stack. -/
theorem applyOp_history (s : WState) (op : Op)
    (h : recordsHistory s op = true) :
    (applyOp s op).history = lastN 20 (s.history ++ [s.textObjects]) ∧
    (applyOp s op).future = [] := by
  cases op with
  | add t n => exact ⟨rfl, rfl⟩
  | del id => exact ⟨rfl, rfl⟩
  | toggleHidden id => exact ⟨rfl, rfl⟩
  | toggleLock id => exact ⟨rfl, rfl⟩
  | move id dir =>
    simp only [recordsHistory, Option.isSome_iff_exists] at h
    obtain ⟨idx, hidx⟩ := h
    simp [applyOp, onMoveLayer, hidx, pushHistory]
  | update id kv => exact ⟨rfl, rfl⟩
  | template tpl n => exact ⟨rfl, rfl⟩

/-- Along a trace of recorded operations the past stack is the capped
concatenation of the original stack with the pre-operation snapshots. -/
theorem applyOps_history (ops : List Op) :
    ∀ s : WState, ops ≠ [] → allRecorded s ops = true →
      ∃ snaps : List (List TextObject),
        snaps.length = ops.length ∧
        snaps.head? = some s.textObjects ∧
        (applyOps s ops).history = lastN 20 (s.history ++ snaps) := by
  induction ops with
  | nil => intro s h; exact absurd rfl h
  | cons op rest ih =>
    intro s _ hrec
    simp only [allRecorded, Bool.and_eq_true] at hrec
    obtain ⟨hr1, hr2⟩ := hrec
    have hstep := applyOp_history s op hr1
    by_cases hrest : rest = []
    · subst hrest
      refine ⟨[s.textObjects], by simp, by simp, ?_⟩
      simpa [applyOps] using hstep.1
    · obtain ⟨snaps, hlen, hhead, hhist⟩ := ih (applyOp s op) hrest hr2
      refine ⟨s.textObjects :: snaps, by simp [hlen], by simp, ?_⟩
      show (applyOps (applyOp s op) rest).history = _
      rw [hhist, hstep.1, lastN_lastN_append]
      simp

theorem findHit_cons (mx my : ℚ) (o : TextObject) (rest : List TextObject) :
    findHit mx my (o :: rest) =
      if o.isHidden || o.isLocked then findHit mx my rest
      else if (mx - o.x) ^ 2 + (my - o.y) ^ 2 < 150 ^ 2 then some o
      else findHit mx my rest := rfl

/-- A successful hit test returns a visible, unlocked layer within the hit
radius, and every layer scanned before it (earlier in the traversal order)
fails the hit predicate. -/
theorem findHit_eq_some (mx my : ℚ) :
    ∀ {l : List TextObject} {obj : TextObject}, findHit mx my l = some obj →
      hitPred mx my obj ∧
        ∃ a b, l = a ++ obj :: b ∧ ∀ z ∈ a, ¬ hitPred mx my z := by
  intro l
  induction l with
  | nil => intro obj h; simp [findHit] at h
  | cons o rest ih =>
    intro obj h
    rw [findHit_cons] at h
    by_cases hskip : (o.isHidden || o.isLocked) = true
    · rw [if_pos hskip] at h
      obtain ⟨hp, a, b, heq, ha⟩ := ih h
      refine ⟨hp, o :: a, b, by simp [heq], ?_⟩
      intro z hz
      rcases List.mem_cons.1 hz with rfl | hz2
      · rintro ⟨h1, h2, _⟩
        rw [h1, h2] at hskip
        simp at hskip
      · exact ha z hz2
    · rw [if_neg hskip] at h
      by_cases hdist : (mx - o.x) ^ 2 + (my - o.y) ^ 2 < 150 ^ 2
      · rw [if_pos hdist] at h
        obtain rfl : o = obj := by simpa using h
        simp only [Bool.or_eq_true, not_or, Bool.not_eq_true] at hskip
        exact ⟨⟨hskip.1, hskip.2, hdist⟩, [], rest, rfl, by simp⟩
      · rw [if_neg hdist] at h
        obtain ⟨hp, a, b, heq, ha⟩ := ih h
        refine ⟨hp, o :: a, b, by simp [heq], ?_⟩
        intro z hz
        rcases List.mem_cons.1 hz with rfl | hz2
        · rintro ⟨_, _, h3⟩
          exact hdist h3
        · exact ha z hz2

/-- If some layer of the list satisfies the hit predicate, the hit test
succeeds. -/
theorem findHit_isSome (mx my : ℚ) :
    ∀ {l : List TextObject}, (∃ z ∈ l, hitPred mx my z) →
      ∃ obj, findHit mx my l = some obj := by
  intro l
  induction l with
  | nil => rintro ⟨z, hz, _⟩; simp at hz
  | cons o rest ih =>
    rintro ⟨z, hz, hp⟩
    rw [findHit_cons]
    rcases List.mem_cons.1 hz with rfl | hz2
    · obtain ⟨h1, h2, h3⟩ := hp
      rw [if_neg (by simp [h1, h2]), if_pos h3]
      exact ⟨z, rfl⟩
    · by_cases hskip : (o.isHidden || o.isLocked) = true
      · rw [if_pos hskip]
        exact ih ⟨z, hz2, hp⟩
      · rw [if_neg hskip]
        by_cases hdist : (mx - o.x) ^ 2 + (my - o.y) ^ 2 < 150 ^ 2
        · rw [if_pos hdist]
          exact ⟨o, rfl⟩
        · rw [if_neg hdist]
          exact ih ⟨z, hz2, hp⟩

/-! ### Claims -/

/-- Claim C1: for every initial state and every sequence of at most 20
history-recorded mutating operations (add, delete, toggle hidden/locked,
reorder, recorded property update, template apply), running the operations
and then undoing the same number of times restores the layer sequence
exactly; moreover the past stack is capped at 20 snapshots and a push onto a
full stack drops the oldest snapshot. -/
theorem c1_undo_restores (s : WState) (ops : List Op)
    (h20 : ops.length ≤ 20) (hrec : allRecorded s ops = true) :
    (undoN (applyOps s ops) ops.length).textObjects = s.textObjects ∧
    (∀ s' : WState, (pushHistory s').history.length ≤ 20 ∧
      (s'.history.length = 20 →
        (pushHistory s').history = s'.history.tail ++ [s'.textObjects])) := by
  constructor
  · by_cases hops : ops = []
    · subst hops; simp [applyOps, undoN]
    · obtain ⟨snaps, hlen, hhead, hhist⟩ := applyOps_history ops s hops hrec
      have hsle : snaps.length ≤ 20 := hlen ▸ h20
      have hdec : (applyOps s ops).history =
          lastN (20 - snaps.length) s.history ++ snaps := by
        rw [hhist, lastN_append_of_le _ _ _ hsle]
      have hpop := undoN_pops snaps (lastN (20 - snaps.length) s.history)
        (applyOps s ops) hdec
      rw [← hlen, hpop]
      cases snaps with
      | nil => simp at hhead
      | cons a t =>
        simp only [List.head?_cons, Option.some.injEq] at hhead
        simp [hhead]
  · intro s'
    constructor
    · rw [pushHistory]
      simp only [length_lastN, List.length_append]
      omega
    · intro h20'
      have hd : (s'.history ++ [s'.textObjects]).length - 20 = 1 := by
        simp [h20']
      show lastN 20 (s'.history ++ [s'.textObjects]) = _
      rw [lastN, hd, List.drop_append_eq_append_drop]
      simp [h20', List.drop_one]

theorem c1_witness :
    (demoOps.length ≤ 20 ∧ allRecorded demoState demoOps = true) ∧
    (undoN (applyOps demoState demoOps) demoOps.length).textObjects =
      demoState.textObjects :=
  ⟨⟨by decide, by decide⟩,
    (c1_undo_restores demoState demoOps (by decide) (by decide)).1⟩

/-- Claim C2: Undo pops the last past snapshot, pushes the pre-undo layer
sequence onto the future stack and installs the snapshot, and is a no-op on
an empty past stack; Redo pops the earliest future snapshot, pushes the
current sequence onto past and installs it, and is a no-op on an empty
future stack; for any state with at least one past snapshot, Undo followed
immediately by Redo leaves the layer sequence unchanged. -/
theorem c2_undo_redo (s : WState) :
    (s.history = [] → handleUndo s = s) ∧
    (∀ p lst, s.history = p ++ [lst] →
      handleUndo s =
        { s with
          textObjects := lst,
          history := p,
          future := s.textObjects :: s.future }) ∧
    (s.future = [] → handleRedo s = s) ∧
    (∀ nxt rest, s.future = nxt :: rest →
      handleRedo s =
        { s with
          textObjects := nxt,
          history := s.history ++ [s.textObjects],
          future := rest }) ∧
    (s.history ≠ [] →
      (handleRedo (handleUndo s)).textObjects = s.textObjects) := by
  refine ⟨?_, ?_, ?_, ?_, ?_⟩
  · intro h; unfold handleUndo; rw [h]; rfl
  · intro p lst h
    unfold handleUndo
    rw [h, List.getLast?_concat, List.dropLast_concat]
  · intro h; unfold handleRedo; rw [h]
  · intro nxt rest h; unfold handleRedo; rw [h]
  · intro h
    rcases List.eq_nil_or_concat s.history with h0 | ⟨p, lst, hp⟩
    · exact absurd h0 h
    · rw [List.concat_eq_append] at hp
      have hu : handleUndo s =
          { s with
            textObjects := lst,
            history := p,
            future := s.textObjects :: s.future } := by
        unfold handleUndo
        rw [hp, List.getLast?_concat, List.dropLast_concat]
      rw [hu]
      rfl

theorem c2_witness :
    demoState2.history ≠ [] ∧
    (handleRedo (handleUndo demoState2)).textObjects =
      demoState2.textObjects :=
  ⟨by decide, (c2_undo_redo demoState2).2.2.2.2 (by decide)⟩

/-- Claim C3 counterexample: the claim asserts that a drag update landing at
X = 625 snaps to 640, but the snap condition is a strict comparison
`|625 - 640| < 15`, which fails at distance exactly 15: the stored X is 625,
not 640. -/
theorem c3_counterexample :
    ((handleMouseMove demoDragState 625 360).textObjects.map TextObject.x)
      = [625] ∧ (625 : ℚ) ≠ 640 := by
  constructor
  · norm_num [handleMouseMove, findById, demoDragState, demoDragLayer,
      demoLayer, snapCoord]
  · norm_num

/-- Claim C3 (amended): during a drag, snapping is applied independently per
axis with a strict threshold: an unsnapped coordinate at distance strictly
less than 15 from the center (640 horizontally, 360 vertically) is stored as
exactly the center, and a coordinate at distance 15 or more is stored
unchanged; X = 628 snaps to 640, X = 620 stays 620, and neither X = 625
(distance exactly 15) nor X = 624 snaps. -/
theorem c3_snapping (s : WState) (mx my : ℚ) (activeObj : TextObject)
    (hfind : findById s.textObjects s.selectedTextId = some activeObj)
    (hdrag : activeObj.isDragging = true)
    (hlock : activeObj.isLocked = false) :
    ((handleMouseMove s mx my).textObjects = s.textObjects.map fun t =>
      if t.id = s.selectedTextId then
        { t with
          x := snapCoord (mx - s.dragOffset.1) 640,
          y := snapCoord (my - s.dragOffset.2) 360 }
      else t) ∧
    (∀ v c : ℚ, |v - c| < 15 → snapCoord v c = c) ∧
    (∀ v c : ℚ, 15 ≤ |v - c| → snapCoord v c = v) ∧
    snapCoord 628 640 = 640 ∧ snapCoord 620 640 = 620 ∧
    snapCoord 625 640 = 625 ∧ snapCoord 624 640 = 624 := by
  refine ⟨?_, ?_, ?_, by norm_num [snapCoord], by norm_num [snapCoord],
    by norm_num [snapCoord], by norm_num [snapCoord]⟩
  · simp [handleMouseMove, hfind, hdrag, hlock]
  · intro v c h; simp [snapCoord, h]
  · intro v c h; simp [snapCoord, not_lt.2 h]

theorem c3_witness :
    (findById demoDragState.textObjects demoDragState.selectedTextId =
        some demoDragLayer ∧ demoDragLayer.isDragging = true ∧
      demoDragLayer.isLocked = false) ∧
    snapCoord 628 640 = 640 :=
  ⟨⟨by decide, by decide, by decide⟩,
    (c3_snapping demoDragState 628 360 demoDragLayer (by decide) (by decide)
      (by decide)).2.2.2.1⟩

/-- Claim C4: a pointer-down selects the layer found by scanning layers in
reverse paint order, skipping hidden and locked layers, taking the first
whose anchor is within the circular hit radius (so of two candidates the
topmost visible, unlocked one wins: no candidate sits above the selected
layer); a miss only clears selection, leaving both history stacks untouched,
while a hit pushes one snapshot, selects the layer, marks it dragging and
records the pointer offset from the anchor. -/
theorem c4_hit_testing (s : WState) (mx my : ℚ) :
    (findHit mx my s.textObjects.reverse = none →
      handleMouseDown s mx my = { s with selectedTextId := "" }) ∧
    (∀ obj, findHit mx my s.textObjects.reverse = some obj →
      (hitPred mx my obj ∧
        ∃ below above, s.textObjects = below ++ obj :: above ∧
          ∀ z ∈ above, ¬ hitPred mx my z) ∧
      handleMouseDown s mx my =
        { s with
          history := lastN 20 (s.history ++ [s.textObjects]),
          future := [],
          selectedTextId := obj.id,
          textObjects := s.textObjects.map fun t =>
            if t.id = obj.id then { t with isDragging := true } else t,
          dragOffset := (mx - obj.x, my - obj.y) }) ∧
    ((∃ z ∈ s.textObjects, hitPred mx my z) →
      ∃ obj, findHit mx my s.textObjects.reverse = some obj) := by
  refine ⟨?_, ?_, ?_⟩
  · intro h
    unfold handleMouseDown
    rw [h]
  · intro obj h
    obtain ⟨hp, a, b, heq, ha⟩ := findHit_eq_some mx my h
    constructor
    · refine ⟨hp, b.reverse, a.reverse, ?_, ?_⟩
      · have hrev := congrArg List.reverse heq
        simpa [List.reverse_append] using hrev
      · intro z hz
        exact ha z (List.mem_reverse.1 hz)
    · unfold handleMouseDown
      rw [h]
      rfl
  · rintro ⟨z, hz, hp⟩
    exact findHit_isSome mx my ⟨z, List.mem_reverse.2 hz, hp⟩

theorem c4_witness :
    findHit 630 360 demoTwo.textObjects.reverse = some layerB ∧
    hitPred 630 360 layerB :=
  ⟨by norm_num [findHit, demoTwo, layerA, layerB, demoLayer, hitPred],
    (((c4_hit_testing demoTwo 630 360).2.1 layerB
      (by norm_num [findHit, demoTwo, layerA, layerB, demoLayer])).1).1⟩

/-- Claim C5 counterexample: the keydown nudge handler never consults the
locked flag, so ArrowUp moves a locked, selected layer: the anchor y of the
locked layer drops from 360 to 359. -/
theorem c5_counterexample :
    ((handleKeyDown demoLocked (.arrowUp false)).textObjects.map
      TextObject.y) = [359] ∧ (359 : ℚ) ≠ 360 := by
  constructor
  · norm_num [handleKeyDown, findById, updateObject, applyProp, demoLocked,
      lockedLayer, demoLayer]
    decide
  · norm_num

/-- Claim C5 (amended): a locked, selected layer is unchanged by pointer-move
drag handling (the move handler returns early on a locked active object),
but arrow-key nudge handling moves the selected layer whether or not it is
locked, by 1 logical unit (10 with shift), without touching the history or
future stacks. -/
theorem c5_locked (s : WState) (o : TextObject) (shift : Bool)
    (hfind : findById s.textObjects s.selectedTextId = some o) :
    (o.isLocked = true → ∀ mx my, handleMouseMove s mx my = s) ∧
    (s.selectedTextId ≠ "" →
      (handleKeyDown s (.arrowUp shift) =
        { s with
          textObjects := s.textObjects.map fun t =>
            if t.id = s.selectedTextId then
              { t with y := o.y - (if shift then 10 else 1) }
            else t }) ∧
      (handleKeyDown s (.arrowDown shift) =
        { s with
          textObjects := s.textObjects.map fun t =>
            if t.id = s.selectedTextId then
              { t with y := o.y + (if shift then 10 else 1) }
            else t }) ∧
      (handleKeyDown s (.arrowLeft shift) =
        { s with
          textObjects := s.textObjects.map fun t =>
            if t.id = s.selectedTextId then
              { t with x := o.x - (if shift then 10 else 1) }
            else t }) ∧
      (handleKeyDown s (.arrowRight shift) =
        { s with
          textObjects := s.textObjects.map fun t =>
            if t.id = s.selectedTextId then
              { t with x := o.x + (if shift then 10 else 1) }
            else t }) ∧
      (handleKeyDown s (.arrowUp shift)).history = s.history ∧
      (handleKeyDown s (.arrowUp shift)).future = s.future) := by
  constructor
  · intro hlock mx my
    simp [handleMouseMove, hfind, hlock]
  · intro hsel
    refine ⟨?_, ?_, ?_, ?_, ?_, ?_⟩ <;>
      simp only [handleKeyDown, if_neg hsel, hfind, updateObject] <;> rfl

theorem c5_witness :
    (findById demoLocked.textObjects demoLocked.selectedTextId =
        some lockedLayer ∧ lockedLayer.isLocked = true) ∧
    handleMouseMove demoLocked 500 500 = demoLocked :=
  ⟨⟨by decide, by decide⟩,
    (c5_locked demoLocked lockedLayer false (by decide)).1 (by decide)
      500 500⟩

/-- Claim C6 counterexample: template-supplied fields are not always
preserved.  A template object supplying `fontFamily = "Oswald"` and `x = 0`
produces a layer with `fontFamily = "Cairo"` (the literal after the spread
overwrites the supplied value) and `x = 640` (the `x || 640` fallback also
fires on the falsy supplied value 0). -/
theorem c6_counterexample :
    ((handleApplyTemplate true demoState demoTplBad 5).textObjects.map
      fun t => (t.fontFamily, t.x)) = [("Cairo", (640 : ℚ))] ∧
    ("Cairo" : String) ≠ "Oswald" ∧ (640 : ℚ) ≠ 0 := by decide

theorem length_mapWithIndex (f : Nat → PartialTextObject → TextObject) :
    ∀ (i : Nat) (objs : List PartialTextObject),
      (mapWithIndex f i objs).length = objs.length := by
  intro i objs
  induction objs generalizing i with
  | nil => rfl
  | cons o rest ih => simp [mapWithIndex, ih]

/-- Claim C6 (amended): applying a template (after confirmation) replaces the
entire layer sequence with freshly-identified layers built from its partial
definitions; the fields fontFamily, shadow (color and blur), opacity,
lineHeight, locked, hidden and alignment are always set to the global
defaults, overwriting any template-supplied value, while the
falsy-coalesced fields (text, x, y, fontSize, colors, stroke width,
highlight color/scale, rotation) keep a supplied truthy value and fall back
to the default when absent or falsy (0 or empty string); the first resulting
layer is selected; applying the 3-layer template to a 1-layer scene yields
exactly 3 layers, none sharing the original id, with the first selected. -/
theorem c6_template (s : WState) (tpl : CanvasTemplate) (now : Nat) :
    ((handleApplyTemplate true s tpl now).textObjects =
      mapWithIndex (mkTemplateObject now) 0 tpl.objects) ∧
    ((handleApplyTemplate true s tpl now).textObjects.length =
      tpl.objects.length) ∧
    (∀ obj i, (mkTemplateObject now i obj).fontFamily = "Cairo" ∧
      (mkTemplateObject now i obj).opacity = 1 ∧
      (mkTemplateObject now i obj).lineHeight = 1.2 ∧
      (mkTemplateObject now i obj).isLocked = false ∧
      (mkTemplateObject now i obj).isHidden = false ∧
      (mkTemplateObject now i obj).align = Align.center ∧
      (mkTemplateObject now i obj).shadowBlur = 10 ∧
      (mkTemplateObject now i obj).shadowColor = "rgba(0,0,0,0.8)" ∧
      (obj.x = none → (mkTemplateObject now i obj).x = 640) ∧
      (∀ v, obj.x = some v → v ≠ 0 → (mkTemplateObject now i obj).x = v) ∧
      (obj.text = none → (mkTemplateObject now i obj).text = "نص") ∧
      (∀ v, obj.text = some v → v ≠ "" →
        (mkTemplateObject now i obj).text = v) ∧
      (obj.fontSize = none → (mkTemplateObject now i obj).fontSize = 60) ∧
      (∀ v, obj.fontSize = some v → v ≠ 0 →
        (mkTemplateObject now i obj).fontSize = v) ∧
      (obj.highlightWords = none →
        (mkTemplateObject now i obj).highlightWords = []) ∧
      (∀ w, obj.highlightWords = some w →
        (mkTemplateObject now i obj).highlightWords = w)) ∧
    (∀ o rest, tpl.objects = o :: rest →
      (handleApplyTemplate true s tpl now).selectedTextId = mkTplId now 0) ∧
    ((handleApplyTemplate true sceneX demoTpl3 99).textObjects.length = 3 ∧
      (∀ l ∈ (handleApplyTemplate true sceneX demoTpl3 99).textObjects,
        l.id ≠ "orig") ∧
      (handleApplyTemplate true sceneX demoTpl3 99).selectedTextId =
        mkTplId 99 0) := by
  refine ⟨by simp [handleApplyTemplate],
    by simp [handleApplyTemplate, length_mapWithIndex], ?_, ?_,
    by decide, by decide, by decide⟩
  · intro obj i
    refine ⟨rfl, rfl, rfl, rfl, rfl, rfl, rfl, rfl,
      ?_, ?_, ?_, ?_, ?_, ?_, ?_, ?_⟩
    · intro h; simp [mkTemplateObject, orNum, h]
    · intro v hv hne; simp [mkTemplateObject, orNum, hv, hne]
    · intro h; simp [mkTemplateObject, orStr, h]
    · intro v hv hne; simp [mkTemplateObject, orStr, hv, hne]
    · intro h; simp [mkTemplateObject, orNum, h]
    · intro v hv hne; simp [mkTemplateObject, orNum, hv, hne]
    · intro h; simp [mkTemplateObject, h]
    · intro w hw; simp [mkTemplateObject, hw]
  · intro o rest h
    simp [handleApplyTemplate, h, mapWithIndex, mkTemplateObject]

theorem c6_witness :
    (demoTpl3.objects =
      ({ text := some "VS", x := some 640 } : PartialTextObject) ::
        [{ text := some "A" }, { text := some "B" }]) ∧
    (handleApplyTemplate true sceneX demoTpl3 99).selectedTextId =
      mkTplId 99 0 :=
  ⟨by decide, (c6_template sceneX demoTpl3 99).2.2.2.1
    ({ text := some "VS", x := some 640 } : PartialTextObject)
    [{ text := some "A" }, { text := some "B" }] (by decide)⟩

/-- Claim C7 counterexample: a recorded property update with an unknown id
and a reorder already at the boundary both leave the layer sequence
unchanged, but they are not complete no-ops — each still pushes a history
snapshot (the initial past stack here is empty, and is nonempty after). -/
theorem c7_counterexample :
    ((updateObject demoState "nosuch" (.x 5) true).textObjects =
        demoState.textObjects ∧
      (updateObject demoState "nosuch" (.x 5) true).history ≠
        demoState.history) ∧
    ((onMoveLayer demoState "L1" .up).textObjects = demoState.textObjects ∧
      (onMoveLayer demoState "L1" .up).history ≠ demoState.history) := by
  decide

theorem map_update_of_not_mem (l : List TextObject) (id : String)
    (f : TextObject → TextObject) (h : ∀ t ∈ l, t.id ≠ id) :
    (l.map fun t => if t.id = id then f t else t) = l := by
  induction l with
  | nil => rfl
  | cons a rest ih =>
    simp only [List.map_cons]
    rw [if_neg (h a (by simp)), ih fun t ht => h t (by simp [ht])]

/-- Claim C7 (amended): the degenerate operations raise no error and leave
the layer sequence unchanged, but they are not silent on history — a
recorded property update whose id matches no layer, and a reorder whose
target is already at the relevant boundary, each push one snapshot (equal to
the current layer sequence) onto the past stack and clear the future stack;
only a reorder whose id matches no layer is a complete no-op. -/
theorem c7_degenerate (s : WState) (id : String) (kv : PropUpdate)
    (idx : Nat) :
    ((∀ t ∈ s.textObjects, t.id ≠ id) →
      updateObject s id kv true = pushHistory s) ∧
    ((∀ t ∈ s.textObjects, t.id ≠ id) → ∀ dir, onMoveLayer s id dir = s) ∧
    (s.textObjects.findIdx? (fun t => t.id == id) = some idx →
      ¬ idx < s.textObjects.length - 1 →
      onMoveLayer s id .up = pushHistory s) ∧
    (s.textObjects.findIdx? (fun t => t.id == id) = some idx → idx = 0 →
      onMoveLayer s id .down = pushHistory s) ∧
    (pushHistory s).textObjects = s.textObjects ∧
    (pushHistory s).history = lastN 20 (s.history ++ [s.textObjects]) ∧
    (pushHistory s).future = [] := by
  refine ⟨?_, ?_, ?_, ?_, rfl, rfl, rfl⟩
  · intro h
    show ({ pushHistory s with
      textObjects := s.textObjects.map fun t =>
        if t.id = id then applyProp kv t else t }) = pushHistory s
    rw [map_update_of_not_mem s.textObjects id (applyProp kv) h]
    rfl
  · intro h dir
    have hnone : s.textObjects.findIdx? (fun t => t.id == id) = none :=
      List.findIdx?_eq_none_iff.2 fun t ht => by simp [h t ht]
    unfold onMoveLayer
    rw [hnone]
  · intro hidx hbound
    unfold onMoveLayer
    rw [hidx]
    show ({ pushHistory s with
      textObjects := if idx < s.textObjects.length - 1 then
        swapWithNext s.textObjects idx
      else s.textObjects }) = pushHistory s
    rw [if_neg hbound]
    rfl
  · intro hidx h0
    unfold onMoveLayer
    rw [hidx]
    show ({ pushHistory s with
      textObjects := if 0 < idx then
        swapWithNext s.textObjects (idx - 1)
      else s.textObjects }) = pushHistory s
    rw [if_neg (by omega)]
    rfl

theorem c7_witness :
    (∀ t ∈ demoState.textObjects, t.id ≠ "zzz") ∧
    updateObject demoState "zzz" (.x 5) true = pushHistory demoState :=
  ⟨by decide, (c7_degenerate demoState "zzz" (.x 5) 0).1 (by decide)⟩

/-- Claim C8: every history-recorded mutation clears the future stack, so
after any number of undos followed by a recorded mutation the future stack
is empty and a subsequent redo is a no-op. -/
theorem c8_clears_future (s : WState) (k : Nat) (op : Op)
    (hrec : recordsHistory (undoN s k) op = true) :
    (applyOp (undoN s k) op).future = [] ∧
    handleRedo (applyOp (undoN s k) op) = applyOp (undoN s k) op ∧
    (∀ (s' : WState) (op' : Op), recordsHistory s' op' = true →
      (applyOp s' op').future = []) ∧
    (∀ s' : WState, s'.future = [] → handleRedo s' = s') := by
  have hgen : ∀ (s' : WState) (op' : Op), recordsHistory s' op' = true →
      (applyOp s' op').future = [] :=
    fun s' op' h => (applyOp_history s' op' h).2
  have hredo : ∀ s' : WState, s'.future = [] → handleRedo s' = s' := by
    intro s' h
    unfold handleRedo
    rw [h]
  exact ⟨hgen _ _ hrec, hredo _ (hgen _ _ hrec), hgen, hredo⟩

theorem c8_witness :
    recordsHistory (undoN demoState 1) (.add "B" 3) = true ∧
    (applyOp (undoN demoState 1) (.add "B" 3)).future = [] :=
  ⟨by decide, (c8_clears_future demoState 1 (.add "B" 3) (by decide)).1⟩

theorem drawPositions_succ (ms : List WordMetric) :
    ∀ (startX : ℚ) (i : Nat), i + 1 < ms.length →
      ∃ p w, (drawPositions startX ms)[i]? = some p ∧ ms[i]? = some w ∧
        (drawPositions startX ms)[i + 1]? = some (p + w.width) := by
  induction ms with
  | nil => intro _ i h; simp at h
  | cons m rest ih =>
    intro startX i h
    cases i with
    | zero =>
      cases rest with
      | nil => simp at h
      | cons m2 r2 =>
        exact ⟨startX, m, rfl, rfl, by simp [drawPositions]⟩
    | succ j =>
      obtain ⟨p, w, h1, h2, h3⟩ := ih (startX + m.width) j (by simpa using h)
      exact ⟨p, w, by simpa [drawPositions] using h1,
        by simpa using h2, by simpa [drawPositions] using h3⟩

/-- Claim C9: in the word-metric pass, a word whose cleaned form is in the
highlight set gets size fontSize × highlightScale and every other word gets
fontSize; each word advance width is its own measured width at its drawn
size; for the layer with text HELLO WORLD, highlight set [WORLD], scale 1.5
and fontSize 40, the WORLD entry is measured at size 60 (not 40). -/
theorem c9_highlight_advance (measure : String → ℚ → ℚ) (obj : TextObject)
    (line : String) :
    (∀ m ∈ lineWordMetrics measure obj line,
      m.isHigh = obj.highlightWords.contains (cleanWord m.word) ∧
      m.size = (if m.isHigh then obj.fontSize * obj.highlightScale
        else obj.fontSize) ∧
      m.width = measure (m.word ++ " ") m.size) ∧
    (∀ (startX : ℚ) (ms : List WordMetric) (i : Nat), i + 1 < ms.length →
      ∃ p w, (drawPositions startX ms)[i]? = some p ∧ ms[i]? = some w ∧
        (drawPositions startX ms)[i + 1]? = some (p + w.width)) ∧
    (lineWordMetrics measure hw40 "HELLO WORLD" =
      [{ word := "HELLO", width := measure "HELLO " 40, size := 40,
         isHigh := false },
       { word := "WORLD", width := measure "WORLD " 60, size := 60,
         isHigh := true }]) ∧
    hw40.fontSize * hw40.highlightScale = 60 ∧ (60 : ℚ) ≠ 40 := by
  refine ⟨?_, ?_, ?_, by norm_num [hw40, demoLayer], by norm_num⟩
  · intro m hm
    simp only [lineWordMetrics, List.mem_map] at hm
    obtain ⟨w, _, rfl⟩ := hm
    exact ⟨rfl, rfl, rfl⟩
  · exact fun startX ms i h => drawPositions_succ ms startX i h
  · have h1 : isArabicLine "HELLO WORLD" = false := by decide
    have h2 : splitSpace "HELLO WORLD" = ["HELLO", "WORLD"] := by decide
    have h3 : hw40.highlightWords.contains (cleanWord "HELLO") = false := by
      decide
    have h4 : hw40.highlightWords.contains (cleanWord "WORLD") = true := by
      decide
    simp only [lineWordMetrics, h1, h2, Bool.false_eq_true, if_false,
      List.map_cons, List.map_nil, h3, h4, if_true]
    norm_num [hw40, demoLayer]
    exact ⟨rfl, rfl⟩

theorem c9_witness :
    wmWorld ∈ lineWordMetrics cmeasure hw40 "HELLO WORLD" ∧
    wmWorld.width = cmeasure (wmWorld.word ++ " ") wmWorld.size :=
  ⟨by
    have h1 : isArabicLine "HELLO WORLD" = false := by decide
    have h2 : splitSpace "HELLO WORLD" = ["HELLO", "WORLD"] := by decide
    have h4 : hw40.highlightWords.contains (cleanWord "WORLD") = true := by
      decide
    simp only [lineWordMetrics, h1, Bool.false_eq_true, if_false, h2,
      List.map_cons, List.map_nil, h4, if_true, cmeasure]
    norm_num [hw40, demoLayer, wmWorld]
    ,
    ((c9_highlight_advance cmeasure hw40 "HELLO WORLD").1 wmWorld
      (by
        have h1 : isArabicLine "HELLO WORLD" = false := by decide
        have h2 : splitSpace "HELLO WORLD" = ["HELLO", "WORLD"] := by decide
        have h4 : hw40.highlightWords.contains (cleanWord "WORLD") = true :=
          by decide
        simp only [lineWordMetrics, h1, Bool.false_eq_true, if_false, h2,
          List.map_cons, List.map_nil, h4, if_true, cmeasure]
        norm_num [hw40, demoLayer, wmWorld])).2.2⟩

/-- Claim C10: applying a template with an empty object list replaces the
scene with zero layers but leaves the selection id unchanged, so the
selection can name a layer absent from the scene; only a template with at
least one layer re-targets selection to its first layer. -/
theorem c10_empty_template (s : WState) (tpl : CanvasTemplate) (now : Nat) :
    (tpl.objects = [] →
      (handleApplyTemplate true s tpl now).textObjects = [] ∧
      (handleApplyTemplate true s tpl now).selectedTextId =
        s.selectedTextId ∧
      ∀ l ∈ (handleApplyTemplate true s tpl now).textObjects,
        l.id ≠ s.selectedTextId) ∧
    (∀ o rest, tpl.objects = o :: rest →
      (handleApplyTemplate true s tpl now).selectedTextId =
        (mkTemplateObject now 0 o).id) := by
  constructor
  · intro h
    refine ⟨?_, ?_, ?_⟩ <;> simp [handleApplyTemplate, h, mapWithIndex]
  · intro o rest h
    simp [handleApplyTemplate, h, mapWithIndex]

theorem c10_witness :
    demoTpl0.objects = [] ∧
    (handleApplyTemplate true sceneX demoTpl0 4).textObjects = [] ∧
    (handleApplyTemplate true sceneX demoTpl0 4).selectedTextId =
      sceneX.selectedTextId :=
  ⟨rfl, ((c10_empty_template sceneX demoTpl0 4).1 rfl).1,
    ((c10_empty_template sceneX demoTpl0 4).1 rfl).2.1⟩
